import Mathlib

/-!
Verification of the concierge-agent repository (src/agent.py, src/tools.py).

Shallow embedding conventions:
* Python strings are Lean `String`s; `len`, slicing and prefix tests operate on
  code points, matching Python semantics.  Helpers that the Python standard
  library provides (`str.strip`, `str.lower`, `str.replace`, `str.join`,
  `json.dumps`, `os.path.join`, `os.path.normpath`) are re-implemented here
  from their documented behaviour, restricted to ASCII case folding and ASCII
  whitespace (the claims only exercise ASCII data).
* Values produced by `json.loads` are modelled by the inductive `JVal`.
  `json.loads` itself, the two remote backends, and the tool bodies perform
  I/O, so they enter the model as components of a `World` record: an arbitrary
  but fixed assignment of results to calls.  Every claim is proved for all
  worlds or refuted at a concrete world.
* An uncaught Python exception is modelled by `Except.error` carrying the
  exception text; a function that cannot raise returns a plain value.
* Wall-clock instants (`datetime.datetime`) are modelled as `Nat` seconds; a
  stored `due_at` ISO string is `some t` when `datetime.fromisoformat` accepts
  it and `none` when it raises (the `continue` branch of `check_reminders`).
-/

/-- JSON values as produced by Python `json.loads` (floats are outside the
model; the repository only ever manipulates strings, ints, bools, null,
arrays and objects). -/
inductive JVal where
  | str (s : String)
  | num (n : Int)
  | bool (b : Bool)
  | null
  | arr (xs : List JVal)
  | obj (kvs : List (String × JVal))

/-- Python `dict` lookup for an object decoded by `json.loads`: duplicate keys
keep the last occurrence, mirroring dict construction order. -/
def jGet (kvs : List (String × JVal)) (k : String) : Option JVal :=
  kvs.foldl (fun acc kv => if kv.1 == k then some kv.2 else acc) none

/-- Python truthiness of a decoded JSON value. -/
def jTruthy : JVal → Bool
  | JVal.str s => ¬ s == ""
  | JVal.num n => ¬ n == 0
  | JVal.bool b => b
  | JVal.null => false
  | JVal.arr xs => ¬ xs.isEmpty
  | JVal.obj kvs => ¬ kvs.isEmpty

/-- Python whitespace test used by `str.strip()` (ASCII fragment). -/
def isPySpace (c : Char) : Bool :=
  c == ' ' || c == '\t' || c == '\n' || c == '\x0d' || c == (Char.ofNat 11) || c == (Char.ofNat 12)

/-- Python `str.strip()` with no arguments (ASCII whitespace fragment). -/
def pyStrip (s : String) : String :=
  String.mk (((s.data.dropWhile isPySpace).reverse.dropWhile isPySpace).reverse)

/-- ASCII lower-casing of one character, the fragment of Python `str.lower`
exercised by the planner. -/
def lowerChar (c : Char) : Char :=
  if 'A' ≤ c ∧ c ≤ 'Z' then Char.ofNat (c.toNat + 32) else c

/-- Python `str.lower()` (ASCII fragment). -/
def lowerStr (s : String) : String :=
  String.mk (s.data.map lowerChar)

/-- Boolean substring test: Python `needle in hay` on strings, at the
character-list level. -/
def infixOfB (needle : List Char) : List Char → Bool
  | [] => needle.isEmpty
  | c :: rest => needle.isPrefixOf (c :: rest) || infixOfB needle rest

/-- Python `needle in hay` for strings. -/
def hasSub (hay needle : String) : Bool :=
  infixOfB needle.data hay.data

/-- Python `sep.join(parts)`. -/
def joinWith (sep : String) : List String → String
  | [] => ""
  | [x] => x
  | x :: y :: rest => x ++ sep ++ joinWith sep (y :: rest)

/-- Python slice `s[:n]`. -/
def strTakeLeft (s : String) (n : Nat) : String :=
  String.mk (s.data.take n)

/-- Python slice `s[-n:]`. -/
def strTakeRight (s : String) (n : Nat) : String :=
  String.mk (s.data.drop (s.data.length - n))

/-- Fuel-driven worker for `pyReplace`; the fuel starts above the list length,
and each step consumes at least one character, so the fuel never runs dry. -/
def replaceAllAux (pat rep : List Char) : Nat → List Char → List Char
  | 0, l => l
  | _ + 1, [] => []
  | fuel + 1, c :: rest =>
      if pat.isPrefixOf (c :: rest) ∧ ¬ pat.isEmpty then
        rep ++ replaceAllAux pat rep fuel ((c :: rest).drop pat.length)
      else
        c :: replaceAllAux pat rep fuel rest

/-- Python `s.replace(pat, rep)` (all occurrences, left to right; the
repository only calls it with a non-empty pattern). -/
def pyReplace (s pat rep : String) : String :=
  String.mk (replaceAllAux pat.data rep.data (s.data.length + 1) s.data)

/-- Lowercase hexadecimal digit, used by the `\uXXXX` escapes of
`json.dumps`. -/
def hexDig (n : Nat) : Char :=
  if n < 10 then Char.ofNat (48 + n) else Char.ofNat (87 + n % 16)

/-- One `\uXXXX` escape of `json.dumps`. -/
def uEsc (n : Nat) : String :=
  String.mk ['\\', 'u', hexDig (n / 4096 % 16), hexDig (n / 256 % 16), hexDig (n / 16 % 16), hexDig (n % 16)]

/-- Escaping of a single character inside a `json.dumps` string literal;
`ea` is the `ensure_ascii` flag. -/
def escChar (ea : Bool) (c : Char) : String :=
  if c == '"' then "\\\""
  else if c == '\\' then "\\\\"
  else if c == '\n' then "\\n"
  else if c == '\x0d' then "\\r"
  else if c == '\t' then "\\t"
  else if c == Char.ofNat 8 then "\\b"
  else if c == Char.ofNat 12 then "\\f"
  else if c.toNat < 32 then uEsc c.toNat
  else if ea ∧ 126 < c.toNat then
    if c.toNat ≤ 65535 then uEsc c.toNat
    else uEsc (55296 + (c.toNat - 65536) / 1024) ++ uEsc (56320 + (c.toNat - 65536) % 1024)
  else String.mk [c]

/-- Concatenation of a list of strings. -/
def joinAll (l : List String) : String :=
  l.foldl (· ++ ·) ""

/-- String literal rendering of `json.dumps`. -/
def jsonQuote (ea : Bool) (s : String) : String :=
  "\"" ++ joinAll (s.data.map (escChar ea)) ++ "\""

mutual
/-- Python `json.dumps` with default separators; `ea` is `ensure_ascii`. -/
def jvalDumps (ea : Bool) : JVal → String
  | JVal.str s => jsonQuote ea s
  | JVal.num n => toString n
  | JVal.bool b => if b then "true" else "false"
  | JVal.null => "null"
  | JVal.arr xs => "[" ++ dumpsItems ea xs ++ "]"
  | JVal.obj kvs => "\x7b" ++ dumpsFields ea kvs ++ "\x7d"

/-- Comma-separated array members for `jvalDumps`. -/
def dumpsItems (ea : Bool) : List JVal → String
  | [] => ""
  | [x] => jvalDumps ea x
  | x :: y :: rest => jvalDumps ea x ++ ", " ++ dumpsItems ea (y :: rest)

/-- Comma-separated object members for `jvalDumps`. -/
def dumpsFields (ea : Bool) : List (String × JVal) → String
  | [] => ""
  | [(k, v)] => jsonQuote ea k ++ ": " ++ jvalDumps ea v
  | (k, v) :: kv2 :: rest => jsonQuote ea k ++ ": " ++ jvalDumps ea v ++ ", " ++ dumpsFields ea (kv2 :: rest)
end

/-- Python `str()` applied to a decoded JSON value, as used by the f-strings
of `agent.py`.  The `arr`/`obj` cases never reach an f-string in `chat`
(the registry membership test raises on them first); they are rendered via
`jvalDumps` as a stand-in for `repr`. -/
def pyStr : JVal → String
  | JVal.str s => s
  | JVal.num n => toString n
  | JVal.bool b => if b then "True" else "False"
  | JVal.null => "None"
  | JVal.arr xs => jvalDumps false (JVal.arr xs)
  | JVal.obj kvs => jvalDumps false (JVal.obj kvs)

/-- Python `str()` where the value may be the `None` returned by
`dict.get`. -/
def optPyStr : Option JVal → String
  | none => "None"
  | some v => pyStr v

/-- Python type name of a decoded JSON value, as it appears in an
`AttributeError` message. -/
def pyTypeName : JVal → String
  | JVal.str _ => "str"
  | JVal.num _ => "int"
  | JVal.bool _ => "bool"
  | JVal.null => "NoneType"
  | JVal.arr _ => "list"
  | JVal.obj _ => "dict"

/-- Python `(v or "")` applied to an optional decoded value (`dict.get`
returns `None` for a missing key; falsy values collapse to `""`). -/
def pyOrEmptyStr (v : Option JVal) : JVal :=
  match v with
  | none => JVal.str ""
  | some x => if jTruthy x then x else JVal.str ""

/-- Python `(v or {})` applied to an optional decoded value. -/
def pyOrDict (v : Option JVal) : JVal :=
  match v with
  | none => JVal.obj []
  | some x => if jTruthy x then x else JVal.obj []

/-- Python `.strip()` on a value of unknown type: succeeds on strings and
raises `AttributeError` otherwise. -/
def jStrip : JVal → Except String String
  | JVal.str s => Except.ok (pyStrip s)
  | v => Except.error ("AttributeError: '" ++ pyTypeName v ++ "' object has no attribute 'strip'")

/-! ## tools.py -/

/-- Python `"x/y".split("/")` at the character-list level: splitting on the
slash character, keeping empty pieces (`"".split("/") == [""]`). -/
def splitSlash : List Char → List (List Char)
  | [] => [[]]
  | c :: rest =>
      match splitSlash rest with
      | [] => [[]]
      | g :: gs => if c == '/' then [] :: g :: gs else (c :: g) :: gs

/-- Whether a path string starts with a slash. -/
def startsSlash (s : String) : Bool :=
  match s.data with
  | c :: _ => c == '/'
  | [] => false

/-- Python `posixpath.join(a, b)` for two arguments. -/
def osJoin (a b : String) : String :=
  if startsSlash b then b
  else if a == "" ∨ a.data.getLast? == some '/' then a ++ b
  else a ++ "/" ++ b

/-- One step of the component scan of `posixpath.normpath`:
`initialSlashes` tells whether the path is absolute, `acc` is `new_comps`. -/
def normStep (initialSlashes : Nat) (acc : List String) (comp : String) : List String :=
  if comp == "" ∨ comp == "." then acc
  else if ¬ comp == ".." ∨ (initialSlashes == 0 ∧ acc.isEmpty) ∨ (¬ acc.isEmpty ∧ acc.getLast? == some "..") then
    acc ++ [comp]
  else if ¬ acc.isEmpty then acc.dropLast
  else acc

/-- Python `posixpath.normpath`. -/
def normpath (p : String) : String :=
  if p == "" then "." else
  let initialSlashes : Nat :=
    if p.data.take 2 == ['/', '/'] ∧ ¬ p.data.take 3 == ['/', '/', '/'] then 2
    else if startsSlash p then 1 else 0
  let comps := (splitSlash p.data).map String.mk
  let newComps := comps.foldl (normStep initialSlashes) []
  let res := String.mk (List.replicate initialSlashes '/') ++ joinWith "/" newComps
  if res == "" then "." else res

/-- Filesystem facts visible to `read_file`: `os.path.exists`,
`os.path.getsize`, and the outcome of `open(...).read()` (`Except.error e`
models an `OSError` whose text is `e`; reads use `errors="ignore"` so the
success case is just the decoded text). -/
structure FileSys where
  pathExists : String → Bool
  getsize : String → Nat
  readText : String → Except String String

/-- The function `tools.read_file`, parameterised by the module constant
`BASE_DIR` and the filesystem.  `os.path.abspath(os.path.join(BASE_DIR,
path))` is `normpath (osJoin baseDir path)` because `BASE_DIR` (the directory
of an `abspath`) is absolute, and `abspath` = `normpath` on absolute inputs.
The prefix test is Python `full_path.startswith(BASE_DIR)`: a plain string
prefix test. -/
def read_file (baseDir : String) (fs : FileSys) (path : String) : String :=
  let full_path := normpath (osJoin baseDir path)
  if ¬ baseDir.data.isPrefixOf full_path.data then
    "Access denied: you can only read files inside the project folder."
  else if ¬ fs.pathExists full_path then
    "File not found: " ++ path
  else if 200 * 1024 < fs.getsize full_path then
    "File is too large to read (limit: 200KB)."
  else
    match fs.readText full_path with
    | Except.error e => "Error reading file: " ++ e
    | Except.ok content =>
        let content2 :=
          if 4000 < content.length then strTakeLeft content 4000 ++ "\n\n[Content truncated...]"
          else content
        "Content of " ++ path ++ ":\n\n" ++ content2

/-- Directory containment in the sense of the spec: the resolved path is the
root itself or lies strictly below it (root plus a path separator is a string
prefix).  This is the property the spec's sentence "must refuse paths
resolving outside a fixed root directory" asks for, stated independently of
the code's own test. -/
def insideDir (root p : String) : Bool :=
  p == root || (root ++ "/").data.isPrefixOf p.data

/-- One record of `reminders.json`.  Timestamps are modelled as `Nat`
seconds; `due_at = none` models a stored string `datetime.fromisoformat`
rejects (the `continue` branch of `check_reminders`).  A record missing the
`delivered` key is read with `r.get("delivered", False)`, so the field is
total here. -/
structure Reminder where
  message : String
  created_at : Nat
  due_at : Option Nat
  delivered : Bool
deriving DecidableEq

/-- Rendering of a due record's `due_at` in the summary line (the source
prints the stored ISO string; under the `Nat` time model it prints the
instant). -/
def dueAtText : Option Nat → String
  | some t => toString t
  | none => ""

/-- One iteration of the `for r in reminders:` loop of `check_reminders`:
the updated record, and `some r` when the record was appended to `due`. -/
def reminderStep (now : Nat) (r : Reminder) : Reminder × Option Reminder :=
  if ¬ r.delivered then
    match r.due_at with
    | none => (r, none)
    | some t => if t ≤ now then ({ r with delivered := true }, some r) else (r, none)
  else (r, none)

/-- The function `tools.check_reminders`: `_load_json` hands it the stored
list, the returned pair is (text returned to the caller, list handed to
`_save_json`). -/
def check_reminders (now : Nat) (reminders : List Reminder) : String × List Reminder :=
  let processed := reminders.map (reminderStep now)
  let newList := processed.map Prod.fst
  let due := processed.filterMap Prod.snd
  if due.isEmpty then
    ("You don't have any reminders due right now.", newList)
  else
    (joinWith "\n" ("Here are your due reminders:" ::
        due.map (fun r => "- " ++ r.message ++ " (due at " ++ dueAtText r.due_at ++ ")")),
      newList)

/-- The keys of the `TOOLS` registry of tools.py. -/
def TOOLS : List String :=
  ["web_search", "read_file", "remember_info", "recall_memory", "set_reminder", "check_reminders"]

/-! ## agent.py: module constants and state -/

/-- The module constant `SYSTEM_PROMPT` of agent.py, exactly as the source
spells it (a triple-quoted string opening and closing with a newline). -/
def SYSTEM_PROMPT : String :=
  "\nYou are Jarvis, an AI concierge agent helping a developer named Madhu.\n"
  ++ "\nYou are powered by an LLM backend (Gemini or Hugging Face) and you must ALWAYS produce\n"
  ++ "your primary reasoning output in pure JSON following this schema:\n"
  ++ "\n1) To answer the user directly (no tools):\n"
  ++ "\x7b\n  \"action\": \"respond\",\n  \"content\": \"<your natural language reply to the user>\"\n\x7d\n"
  ++ "\n2) To call a tool:\n"
  ++ "\x7b\n  \"action\": \"tool\",\n  \"name\": \"<tool_name>\",\n  \"args\": \x7b ... \x7d\n\x7d\n"
  ++ "\nAvailable tools and their arguments:\n"
  ++ "\n1) web_search\n   - description: Search the web for recent or dynamic information.\n"
  ++ "   - args: \x7b \"query\": \"search text\" \x7d\n"
  ++ "\n2) read_file\n   - description: Read a small text file from the local project folder.\n"
  ++ "   - args: \x7b \"path\": \"relative/path/to/file.txt\" \x7d\n"
  ++ "\n3) remember_info\n   - description: Save an important note to long-term memory.\n"
  ++ "   - args: \x7b \"note\": \"text to remember\" \x7d\n"
  ++ "\n4) recall_memory\n   - description: Show previously saved notes from long-term memory.\n"
  ++ "   - args: \x7b \x7d\n"
  ++ "\n5) set_reminder\n   - description: Create a reminder N minutes from now.\n"
  ++ "   - args: \x7b \"message\": \"reminder text\", \"minutes_from_now\": 10 \x7d\n"
  ++ "\n6) check_reminders\n   - description: Check which reminders are due now.\n"
  ++ "   - args: \x7b \x7d\n"
  ++ "\nRules:\n"
  ++ "- If the user asks for current or changing information, strongly consider using web_search.\n"
  ++ "- Use remember_info when the user explicitly says to remember something.\n"
  ++ "- Use recall_memory when the user wants to recall past notes.\n"
  ++ "- Use set_reminder/check_reminders for reminder workflows.\n"
  ++ "- If a tool is not needed, use \"action\": \"respond\".\n"
  ++ "\nContext Engineering:\n"
  ++ "- The system may compact older parts of the conversation to keep only the most relevant\n"
  ++ "  recent turns. When this happens, you still respond normally, assuming a short summary\n"
  ++ "  of prior context is sufficient.\n"
  ++ "\nReturn ONLY valid JSON when asked to follow the JSON schema above.\n"

/-- The mutable state of a `GeminiAgent` instance: the constructor arguments
and the growing `self.dialogue` transcript. -/
structure AgentState where
  model_name : String
  max_dialogue_chars : Nat
  dialogue : String

/-- `GeminiAgent.__init__`: the transcript starts as the stripped system
prompt followed by the conversation header. -/
def initState (model_name : String) (max_dialogue_chars : Nat) : AgentState :=
  ⟨model_name, max_dialogue_chars, pyStrip SYSTEM_PROMPT ++ "\n\nConversation so far:\n"⟩

/-- The fixed compaction notice of `_compact_context` (two adjacent Python
string literals, joined). -/
def COMPACT_NOTICE : String :=
  "\n\n[Older conversation compacted for brevity. Only the most recent turns are kept here.]\n\n"

/-- The method `GeminiAgent._compact_context`. -/
def compact_context (st : AgentState) : AgentState :=
  if st.dialogue.length ≤ st.max_dialogue_chars then st
  else { st with dialogue := pyStrip SYSTEM_PROMPT ++ COMPACT_NOTICE ++ strTakeRight st.dialogue 4000 }

/-- Iterated compaction (for the "applied repeatedly" part of the transcript
invariant). -/
def iterCompact : Nat → AgentState → AgentState
  | 0, st => st
  | n + 1, st => iterCompact n (compact_context st)

/-! ## agent.py: the outside world -/

/-- What `_call_model` observes of a `gemini` response object: the `text`
attribute (`none` models attribute absent or `None`), and the joined
candidate-part texts (`none` models an exception inside the extraction
`try`, which the source turns into `""`). -/
structure GemResponse where
  textAttr : Option String
  partsText : Option String

/-- Outcome of invoking a registered tool body `func(**args)`:
a returned value (already stringified), a `TypeError` (argument mismatch or
non-mapping `args`, caught by the first `except`), or any other exception
(caught by the second `except`). -/
inductive ToolExec where
  | ok (result : String)
  | typeErr (e : String)
  | raised (e : String)

/-- The I/O environment of one session: results of Hugging Face calls,
Gemini calls, `json.loads`, and tool invocations, as functions of their
arguments.  `Except.error e` on a backend call models a raised exception
with text `e`; `jsonLoads s = none` models `json.JSONDecodeError`. -/
structure World where
  hfCall : String → Except String (Option String)
  gemCall : String → Except String GemResponse
  jsonLoads : String → Option JVal
  toolCall : String → JVal → ToolExec

/-- The `{"action": "respond", "content": c}` payload built by the fallback
branches of `_call_model`. -/
def respondAction (c : String) : JVal :=
  JVal.obj [("action", JVal.str "respond"), ("content", JVal.str c)]

/-- The method `GeminiAgent._call_model` (used only when the backend is not
`mock`): compacts the dialogue, then consults the selected backend.  Every
branch returns text — backend exceptions are converted to a JSON-serialised
respond action. -/
def call_model (backend : String) (w : World) (st : AgentState) (prompt : String) : String × AgentState :=
  let st1 := compact_context st
  if backend == "hf" then
    match w.hfCall prompt with
    | Except.ok response_text => (pyStrip ((response_text.getD "")), st1)
    | Except.error e =>
        (jvalDumps true (respondAction
          ("I couldn't reach the Hugging Face model due to an error.\n\nTechnical details: " ++ e)), st1)
  else if backend == "gemini" then
    match w.gemCall prompt with
    | Except.error e =>
        (jvalDumps true (respondAction
          ("I couldn't reach the Gemini API because of a quota or network error.\n\nTechnical details: " ++ e)), st1)
    | Except.ok response =>
        let t0 := response.textAttr.getD ""
        let text := if t0 == "" then response.partsText.getD "" else t0
        (pyStrip text, st1)
  else
    (jvalDumps true (respondAction
      "LLM backend is misconfigured. Please set LLM_BACKEND to 'mock', 'hf' or 'gemini' in .env."), st1)

/-! ## agent.py: tool dispatch -/

/-- Result of a registered tool's body folded through the two `except`
clauses of `_run_tool`. -/
def runToolStr (w : World) (name : String) (args : JVal) : String :=
  match w.toolCall name args with
  | ToolExec.ok r => r
  | ToolExec.typeErr e => "Error calling tool '" ++ name ++ "': " ++ e
  | ToolExec.raised e => "Tool '" ++ name ++ "' raised an error: " ++ e

/-- The method `GeminiAgent._run_tool`.  The membership test
`name not in TOOLS` hashes `name`: a decoded list or dict raises
`TypeError: unhashable type` there, outside any `try`, so it propagates
(modelled by `Except.error`).  All other paths return a string. -/
def run_tool (w : World) (name : Option JVal) (args : JVal) : Except String String :=
  match name with
  | some (JVal.arr _) => Except.error "TypeError: unhashable type: 'list'"
  | some (JVal.obj _) => Except.error "TypeError: unhashable type: 'dict'"
  | some (JVal.str n) =>
      if TOOLS.contains n then Except.ok (runToolStr w n args)
      else Except.ok ("Error: tool '" ++ n ++ "' is not implemented.")
  | other => Except.ok ("Error: tool '" ++ optPyStr other ++ "' is not implemented.")

/-! ## agent.py: the rule-based planner and the chat turn -/

/-- The method `GeminiAgent._mock_decide_action`: the rule-based planner used
when `LLM_BACKEND == "mock"`. -/
def mock_decide_action (user_message : String) : JVal :=
  let msg := lowerStr user_message
  if hasSub msg "check reminders" ∨ hasSub msg "any reminders" ∨ hasSub msg "show my reminders" then
    JVal.obj [("action", JVal.str "tool"), ("name", JVal.str "check_reminders"), ("args", JVal.obj [])]
  else if hasSub msg "remember" then
    let note0 := pyStrip (pyReplace user_message "remember that" "")
    let note := if note0 == "" then user_message else note0
    JVal.obj [("action", JVal.str "tool"), ("name", JVal.str "remember_info"),
      ("args", JVal.obj [("note", JVal.str note)])]
  else if hasSub msg "recall" ∨ hasSub msg "what do you remember" ∨ hasSub msg "memory" then
    JVal.obj [("action", JVal.str "tool"), ("name", JVal.str "recall_memory"), ("args", JVal.obj [])]
  else if hasSub msg "search" ∨ hasSub msg "news" then
    JVal.obj [("action", JVal.str "tool"), ("name", JVal.str "web_search"),
      ("args", JVal.obj [("query", JVal.str user_message)])]
  else if hasSub msg "remind" ∨ hasSub msg "reminder" ∨ hasSub msg "set a reminder" then
    JVal.obj [("action", JVal.str "tool"), ("name", JVal.str "set_reminder"),
      ("args", JVal.obj [("message", JVal.str user_message), ("minutes_from_now", JVal.num 5)])]
  else
    JVal.obj [("action", JVal.str "respond"),
      ("content", JVal.str ("Hi, I'm Jarvis running in offline mock mode. I received: " ++ user_message))]

/-- The planning prompt built at the top of the real-backend path of
`chat`. -/
def planPrompt (dialogue user_message : String) : String :=
  dialogue ++ "User: " ++ user_message ++ "\n" ++ "Assistant (reply ONLY in JSON as specified above):"

/-- The follow-up prompt built on the tool path of `chat` (its `args` are
re-serialised with `json.dumps(args, ensure_ascii=False)`). -/
def followupPrompt (dialogue user_message : String) (tool_name : Option JVal) (args : JVal)
    (tool_result : String) : String :=
  dialogue
  ++ "User: " ++ user_message ++ "\n"
  ++ "Assistant decided to call a tool.\n"
  ++ "Tool name: " ++ optPyStr tool_name ++ "\n"
  ++ "Tool args: " ++ jvalDumps false args ++ "\n"
  ++ "Tool result: " ++ tool_result ++ "\n\n"
  ++ "Now Assistant, give the final, user-friendly answer (no JSON, just text):"

/-- Appending one completed turn to the transcript
(`self.dialogue += f"User: {user_message}\nAssistant: {reply}\n"`). -/
def appendTurn (st : AgentState) (user_message reply : String) : AgentState :=
  { st with dialogue := st.dialogue ++ ("User: " ++ user_message ++ "\nAssistant: " ++ reply ++ "\n") }

/-- The method `GeminiAgent.chat`: one full turn.  The first component is the
returned reply, or `Except.error` for an uncaught Python exception; the
second is the state of `self` afterwards (on an exception, the state at the
moment the exception escaped).  A Python `x == "respond"` test on a decoded
value of unknown type is rendered as a match on the `str` constructor: it is
true only for that exact string.  The branches marked unreachable mirror
dict accesses that cannot fail for the values `_mock_decide_action` actually
returns. -/
def chat (backend : String) (w : World) (st : AgentState) (user_message : String) :
    Except String String × AgentState :=
  if backend == "mock" then
    match mock_decide_action user_message with
    | JVal.obj kvs =>
        match jGet kvs "action" with
        | none => (Except.error "KeyError: 'action'", st)  -- unreachable
        | some av =>
            match av with
            | JVal.str a =>
                if a == "respond" then
                  match jStrip ((jGet kvs "content").getD (JVal.str "")) with
                  | Except.error e => (Except.error e, st)
                  | Except.ok s =>
                      let reply := if s == "" then "I tried to respond, but my content was empty." else s
                      (Except.ok reply, appendTurn st user_message reply)
                else if a == "tool" then
                  let name := jGet kvs "name"
                  let args := pyOrDict (jGet kvs "args")
                  match run_tool w name args with
                  | Except.error e => (Except.error e, st)
                  | Except.ok tool_result =>
                      let reply := "(Mock mode) I used tool '" ++ optPyStr name
                        ++ "' and got this result:\n\n" ++ tool_result
                      (Except.ok reply, appendTurn st user_message reply)
                else
                  let reply := "I produced an unknown action in mock mode."
                  (Except.ok reply, appendTurn st user_message reply)
            | _ =>
                let reply := "I produced an unknown action in mock mode."
                (Except.ok reply, appendTurn st user_message reply)
    | _ => (Except.error "TypeError: 'action' of a non-dict", st)  -- unreachable
  else
    let prompt := planPrompt st.dialogue user_message
    let raw := (call_model backend w st prompt).1
    let st1 := (call_model backend w st prompt).2
    match w.jsonLoads raw with
    | none =>
        let reply := if raw == "" then "I could not understand my own JSON output." else raw
        (Except.ok reply, appendTurn st1 user_message reply)
    | some action =>
        match action with
        | JVal.obj kvs =>
            match jGet kvs "action" with
            | none =>
                let reply := if raw == "" then "I produced an invalid JSON action." else raw
                (Except.ok reply, appendTurn st1 user_message reply)
            | some av =>
                match av with
                | JVal.str a =>
                    if a == "respond" then
                      match jStrip (pyOrEmptyStr (jGet kvs "content")) with
                      | Except.error e => (Except.error e, st1)
                      | Except.ok s =>
                          let reply := if s == "" then "I tried to respond, but my content was empty." else s
                          (Except.ok reply, appendTurn st1 user_message reply)
                    else if a == "tool" then
                      let name := jGet kvs "name"
                      let args := pyOrDict (jGet kvs "args")
                      match run_tool w name args with
                      | Except.error e => (Except.error e, st1)
                      | Except.ok tool_result =>
                          let fp := followupPrompt st1.dialogue user_message name args tool_result
                          let ft := (call_model backend w st1 fp).1
                          let st2 := (call_model backend w st1 fp).2
                          let reply := if pyStrip ft == "" then "I used a tool but couldn't form a response."
                            else pyStrip ft
                          (Except.ok reply, appendTurn st2 user_message reply)
                    else
                      let reply := if raw == "" then "I produced an unknown action type." else raw
                      (Except.ok reply, appendTurn st1 user_message reply)
                | _ =>
                    let reply := if raw == "" then "I produced an unknown action type." else raw
                    (Except.ok reply, appendTurn st1 user_message reply)
        | _ =>
            let reply := if raw == "" then "I produced an invalid JSON action." else raw
            (Except.ok reply, appendTurn st1 user_message reply)

/-- Iterated mock-mode turns with a fixed user message (for the unbounded
transcript growth property). -/
def mock_run (w : World) (user_message : String) : Nat → AgentState → AgentState
  | 0, st => st
  | n + 1, st => mock_run w user_message n (chat "mock" w st user_message).2

/-! ## Properties stated from the spec's words -/

/-- The six outcomes the rule-based planner can choose between. -/
inductive PlanChoice where
  | checkRem
  | rememberNote
  | recallMem
  | searchWeb
  | setRem
  | echoDefault
deriving DecidableEq

/-- The choice encoded in a planner action object: which registered tool the
object names, or the default respond. -/
def choiceOf : JVal → PlanChoice
  | JVal.obj kvs =>
      match jGet kvs "action", jGet kvs "name" with
      | some (JVal.str "respond"), _ => PlanChoice.echoDefault
      | some (JVal.str "tool"), some (JVal.str n) =>
          if n == "check_reminders" then PlanChoice.checkRem
          else if n == "remember_info" then PlanChoice.rememberNote
          else if n == "recall_memory" then PlanChoice.recallMem
          else if n == "web_search" then PlanChoice.searchWeb
          else if n == "set_reminder" then PlanChoice.setRem
          else PlanChoice.echoDefault
      | _, _ => PlanChoice.echoDefault
  | _ => PlanChoice.echoDefault

/-- The planner's trigger order as the spec states it: check-reminder
phrases first, then "remember", then "recall"/"memory", then
"search"/"news", then "remind"/"reminder", first match wins, no match is the
default echo.  Written from the spec's sentence, to be compared with
`mock_decide_action`. -/
def specTrigger (user_message : String) : PlanChoice :=
  let msg := lowerStr user_message
  if hasSub msg "check reminders" ∨ hasSub msg "any reminders" ∨ hasSub msg "show my reminders" then
    PlanChoice.checkRem
  else if hasSub msg "remember" then PlanChoice.rememberNote
  else if hasSub msg "recall" ∨ hasSub msg "memory" then PlanChoice.recallMem
  else if hasSub msg "search" ∨ hasSub msg "news" then PlanChoice.searchWeb
  else if hasSub msg "remind" ∨ hasSub msg "reminder" then PlanChoice.setRem
  else PlanChoice.echoDefault

/-- The transcript invariant of the spec: the stripped system instruction is
a prefix of the rendered dialogue. -/
def startsWithSys (d : String) : Prop :=
  (pyStrip SYSTEM_PROMPT).data <+: d.data

/-- Whether a decoded value used as a dict key is hashable (Python lists and
dicts are not). -/
def hashableName : Option JVal → Prop
  | some (JVal.arr _) => False
  | some (JVal.obj _) => False
  | _ => True

/-- Whether `(v or "").strip()` succeeds: after the `or`-coercion the value
is a string. -/
def stripSafeContent (v : Option JVal) : Prop :=
  ∃ s, pyOrEmptyStr v = JVal.str s

/-- A decoded action the turn can digest without an uncaught exception: a
respond action's content is a string after `or`-coercion, and a tool
action's name is hashable.  Anything that is not such an object is handled
by the raw-text fallbacks. -/
def benignVal : JVal → Prop
  | JVal.obj kvs =>
      (jGet kvs "action" = some (JVal.str "respond") → stripSafeContent (jGet kvs "content")) ∧
      (jGet kvs "action" = some (JVal.str "tool") → hashableName (jGet kvs "name"))
  | _ => True

/-- All decodable backend texts of a world are benign. -/
def benignWorld (w : World) : Prop :=
  ∀ s j, w.jsonLoads s = some j → benignVal j

/-- A decoded value that is not an object carrying an `action` key. -/
def noActionKey : JVal → Prop
  | JVal.obj kvs => jGet kvs "action" = none
  | _ => True

/-- The respond-action content is empty or missing (the case the spec's
placeholder sentence is about). -/
def contentEmptyOrMissing (v : Option JVal) : Prop :=
  v = none ∨ v = some (JVal.str "")

/-! ## Helper lemmas -/

/-- Correctness of the boolean substring scan. -/
theorem infixOfB_iff (n l : List Char) : infixOfB n l = true ↔ n <:+: l := by
  induction l with
  | nil =>
      simp [infixOfB, List.isEmpty_iff]
  | cons c rest ih =>
      simp only [infixOfB, Bool.or_eq_true, List.isPrefixOf_iff_prefix, ih]
      exact (List.infix_cons_iff).symm

/-- Substring containment is antitone in the needle. -/
theorem hasSub_of_infix {m n1 n2 : String} (h : n2.data <:+: n1.data)
    (h1 : hasSub m n1 = true) : hasSub m n2 = true := by
  rw [hasSub, infixOfB_iff] at h1 ⊢
  exact h.trans h1

/-- A transcript that starts with the system instruction still does after
appending. -/
theorem startsWithSys_append (d x : String) (h : startsWithSys d) : startsWithSys (d ++ x) := by
  rw [startsWithSys, String.data_append]
  exact h.trans (List.prefix_append _ _)

/-- A concatenation with a non-empty left part is non-empty. -/
theorem append_ne_empty_left (a b : String) (h : a ≠ "") : a ++ b ≠ "" := by
  intro he
  apply h
  apply String.ext
  have hd : (a ++ b).data = [] := by rw [he]
  rw [String.data_append] at hd
  rcases List.append_eq_nil.mp hd with ⟨h1, _⟩
  simpa using h1

/-- A string whose boolean comparison with `""` is false is non-empty. -/
theorem ne_empty_of_beq_false {s : String} (h : (s == "") = false) : s ≠ "" := by
  intro he
  subst he
  simp at h

/-- Every branch of `_call_model` returns the compacted state. -/
theorem call_model_state (backend : String) (w : World) (st : AgentState) (prompt : String) :
    (call_model backend w st prompt).2 = compact_context st := by
  unfold call_model
  by_cases h1 : (backend == "hf") = true
  · simp only [h1, if_true]
    cases w.hfCall prompt <;> rfl
  · simp only [h1, Bool.false_eq_true, if_false]
    by_cases h2 : (backend == "gemini") = true
    · simp only [h2, if_true]
      cases w.gemCall prompt <;> rfl
    · simp only [h2, Bool.false_eq_true, if_false]

/-- Compaction always leaves the system instruction as a prefix, re-creating
it when it actually rewrites the transcript. -/
theorem startsWithSys_compact (st : AgentState) (h : startsWithSys st.dialogue) :
    startsWithSys (compact_context st).dialogue := by
  unfold compact_context
  by_cases hc : st.dialogue.length ≤ st.max_dialogue_chars
  · simpa [hc] using h
  · simp only [hc, if_false]
    show startsWithSys (pyStrip SYSTEM_PROMPT ++ COMPACT_NOTICE ++ strTakeRight st.dialogue 4000)
    rw [startsWithSys, String.data_append, String.data_append, List.append_assoc]
    exact List.prefix_append _ _

/-- The guarded replies of `chat` are never empty. -/
theorem if_empty_ne_empty (x P : String) (hP : P ≠ "") :
    (if x == "" then P else x) ≠ "" := by
  by_cases h : (x == "") = true
  · simpa [h] using hP
  · simpa [h] using ne_empty_of_beq_false (by simpa using h)

/-- A mock-mode chat turn always completes, returns its reply, and appends
exactly one rendered turn to the transcript. -/
theorem chat_mock_spec (w : World) (st : AgentState) (u : String) :
    ∃ r, chat "mock" w st u = (Except.ok r, appendTurn st u r) ∧ r ≠ "" := by
  simp only [chat, mock_decide_action]
  by_cases h1 : (hasSub (lowerStr u) "check reminders" = true ∨ hasSub (lowerStr u) "any reminders" = true ∨ hasSub (lowerStr u) "show my reminders" = true)
  · rw [if_pos h1]
    exact ⟨_, rfl, append_ne_empty_left _ _ (append_ne_empty_left _ _ (append_ne_empty_left _ _ (by decide)))⟩
  · rw [if_neg h1]
    by_cases h2 : hasSub (lowerStr u) "remember" = true
    · rw [if_pos h2]
      exact ⟨_, rfl, append_ne_empty_left _ _ (append_ne_empty_left _ _ (append_ne_empty_left _ _ (by decide)))⟩
    · rw [if_neg h2]
      by_cases h3 : (hasSub (lowerStr u) "recall" = true ∨ hasSub (lowerStr u) "what do you remember" = true ∨ hasSub (lowerStr u) "memory" = true)
      · rw [if_pos h3]
        exact ⟨_, rfl, append_ne_empty_left _ _ (append_ne_empty_left _ _ (append_ne_empty_left _ _ (by decide)))⟩
      · rw [if_neg h3]
        by_cases h4 : (hasSub (lowerStr u) "search" = true ∨ hasSub (lowerStr u) "news" = true)
        · rw [if_pos h4]
          exact ⟨_, rfl, append_ne_empty_left _ _ (append_ne_empty_left _ _ (append_ne_empty_left _ _ (by decide)))⟩
        · rw [if_neg h4]
          by_cases h5 : (hasSub (lowerStr u) "remind" = true ∨ hasSub (lowerStr u) "reminder" = true ∨ hasSub (lowerStr u) "set a reminder" = true)
          · rw [if_pos h5]
            exact ⟨_, rfl, append_ne_empty_left _ _ (append_ne_empty_left _ _ (append_ne_empty_left _ _ (by decide)))⟩
          · rw [if_neg h5]
            exact ⟨_, rfl, if_empty_ne_empty _ _ (by decide)⟩

/-- Dispatch of a hashable tool name never raises. -/
theorem run_tool_ok (w : World) (name : Option JVal) (args : JVal) (h : hashableName name) :
    ∃ s, run_tool w name args = Except.ok s := by
  cases name with
  | none => exact ⟨_, rfl⟩
  | some v =>
      cases v with
      | str n =>
          simp only [run_tool]
          by_cases hc : TOOLS.contains n = true
          · rw [if_pos hc]; exact ⟨_, rfl⟩
          · rw [if_neg hc]; exact ⟨_, rfl⟩
      | num n => exact ⟨_, rfl⟩
      | bool b => exact ⟨_, rfl⟩
      | null => exact ⟨_, rfl⟩
      | arr xs => simp [hashableName] at h
      | obj kvs => simp [hashableName] at h

/-- A real-backend chat turn over a benign world always completes: it
returns a non-empty reply and appends one rendered turn to the once- or
twice-compacted state. -/
theorem chat_real_spec (backend : String) (w : World) (st : AgentState) (u : String)
    (hb : (backend == "mock") = false) (hw : benignWorld w) :
    ∃ r stx, chat backend w st u = (Except.ok r, appendTurn stx u r) ∧ r ≠ "" ∧
      (stx = compact_context st ∨ stx = compact_context (compact_context st)) := by
  simp only [chat, hb, Bool.false_eq_true, if_false]
  rw [call_model_state]
  cases hjl : w.jsonLoads ((call_model backend w st (planPrompt st.dialogue u)).1) with
  | none =>
      exact ⟨_, _, rfl, if_empty_ne_empty _ _ (by decide), Or.inl rfl⟩
  | some j =>
      have hbv := hw _ j hjl
      simp only []
      cases j with
      | obj kvs =>
          rcases hbv with ⟨hresp, htool⟩
          simp only []
          cases hag : jGet kvs "action" with
          | none => exact ⟨_, _, rfl, if_empty_ne_empty _ _ (by decide), Or.inl rfl⟩
          | some av =>
              simp only []
              cases av with
              | str a =>
                  simp only []
                  by_cases ha : (a == "respond") = true
                  · have haeq : a = "respond" := eq_of_beq ha
                    subst haeq
                    rw [if_pos ha]
                    rcases hresp hag with ⟨s, hs⟩
                    rw [hs]
                    exact ⟨_, _, rfl, if_empty_ne_empty _ _ (by decide), Or.inl rfl⟩
                  · rw [if_neg ha]
                    by_cases ht : (a == "tool") = true
                    · have hteq : a = "tool" := eq_of_beq ht
                      subst hteq
                      rw [if_pos ht]
                      rcases run_tool_ok w (jGet kvs "name") (pyOrDict (jGet kvs "args")) (htool hag) with ⟨ts, hts⟩
                      rw [hts]
                      simp only []
                      rw [call_model_state]
                      exact ⟨_, _, rfl, if_empty_ne_empty _ _ (by decide), Or.inr rfl⟩
                    · rw [if_neg ht]
                      exact ⟨_, _, rfl, if_empty_ne_empty _ _ (by decide), Or.inl rfl⟩
              | num n => exact ⟨_, _, rfl, if_empty_ne_empty _ _ (by decide), Or.inl rfl⟩
              | bool b => exact ⟨_, _, rfl, if_empty_ne_empty _ _ (by decide), Or.inl rfl⟩
              | null => exact ⟨_, _, rfl, if_empty_ne_empty _ _ (by decide), Or.inl rfl⟩
              | arr xs => exact ⟨_, _, rfl, if_empty_ne_empty _ _ (by decide), Or.inl rfl⟩
              | obj kvs2 => exact ⟨_, _, rfl, if_empty_ne_empty _ _ (by decide), Or.inl rfl⟩
      | str s => exact ⟨_, _, rfl, if_empty_ne_empty _ _ (by decide), Or.inl rfl⟩
      | num n => exact ⟨_, _, rfl, if_empty_ne_empty _ _ (by decide), Or.inl rfl⟩
      | bool b => exact ⟨_, _, rfl, if_empty_ne_empty _ _ (by decide), Or.inl rfl⟩
      | null => exact ⟨_, _, rfl, if_empty_ne_empty _ _ (by decide), Or.inl rfl⟩
      | arr xs => exact ⟨_, _, rfl, if_empty_ne_empty _ _ (by decide), Or.inl rfl⟩

/-- A non-empty string has positive length. -/
theorem length_pos_of_ne_empty {s : String} (h : s ≠ "") : 0 < s.length := by
  show 0 < s.data.length
  refine List.length_pos.mpr ?_
  intro hd
  exact h (String.ext hd)

/-- Every state `chat` can leave behind on the real-backend path keeps the
system-instruction prefix (error exits included). -/
theorem chat_state_inv (backend : String) (w : World) (st : AgentState) (u : String)
    (hb : (backend == "mock") = false) (h : startsWithSys st.dialogue) :
    startsWithSys (chat backend w st u).2.dialogue := by
  have h1 : startsWithSys (compact_context st).dialogue := startsWithSys_compact st h
  have h2 : startsWithSys (compact_context (compact_context st)).dialogue := startsWithSys_compact _ h1
  simp only [chat, hb, Bool.false_eq_true, if_false]
  rw [call_model_state]
  cases hjl : w.jsonLoads ((call_model backend w st (planPrompt st.dialogue u)).1) with
  | none => exact startsWithSys_append _ _ h1
  | some j =>
      simp only []
      cases j with
      | obj kvs =>
          simp only []
          cases hag : jGet kvs "action" with
          | none => exact startsWithSys_append _ _ h1
          | some av =>
              simp only []
              cases av with
              | str a =>
                  simp only []
                  by_cases ha : (a == "respond") = true
                  · rw [if_pos ha]
                    cases hst : jStrip (pyOrEmptyStr (jGet kvs "content")) with
                    | error e => exact h1
                    | ok s => exact startsWithSys_append _ _ h1
                  · rw [if_neg ha]
                    by_cases ht : (a == "tool") = true
                    · rw [if_pos ht]
                      cases hrt : run_tool w (jGet kvs "name") (pyOrDict (jGet kvs "args")) with
                      | error e => exact h1
                      | ok tr =>
                          simp only []
                          rw [call_model_state]
                          exact startsWithSys_append _ _ h2
                    · rw [if_neg ht]
                      exact startsWithSys_append _ _ h1
              | num n => exact startsWithSys_append _ _ h1
              | bool b => exact startsWithSys_append _ _ h1
              | null => exact startsWithSys_append _ _ h1
              | arr xs => exact startsWithSys_append _ _ h1
              | obj kvs2 => exact startsWithSys_append _ _ h1
      | str s => exact startsWithSys_append _ _ h1
      | num n => exact startsWithSys_append _ _ h1
      | bool b => exact startsWithSys_append _ _ h1
      | null => exact startsWithSys_append _ _ h1
      | arr xs => exact startsWithSys_append _ _ h1

/-! ## Claims -/

/-- C7: a dialogue longer than `max_dialogue_chars` is replaced by the
stripped system prompt, the fixed compaction notice and the last 4000
characters of the previous dialogue, so the new length is bounded by
|stripped prompt| + |notice| + 4000 and the system instruction is a prefix
of the result; a dialogue within the budget is left unchanged. -/
theorem compact_context_spec (st : AgentState) :
    (st.max_dialogue_chars < st.dialogue.length →
      (compact_context st).dialogue
          = pyStrip SYSTEM_PROMPT ++ COMPACT_NOTICE ++ strTakeRight st.dialogue 4000 ∧
      (compact_context st).dialogue.length
          ≤ (pyStrip SYSTEM_PROMPT).length + COMPACT_NOTICE.length + 4000 ∧
      (pyStrip SYSTEM_PROMPT).data <+: (compact_context st).dialogue.data) ∧
    (st.dialogue.length ≤ st.max_dialogue_chars → compact_context st = st) := by
  constructor
  · intro h
    have hc : ¬ st.dialogue.length ≤ st.max_dialogue_chars := by omega
    have he : (compact_context st).dialogue
        = pyStrip SYSTEM_PROMPT ++ COMPACT_NOTICE ++ strTakeRight st.dialogue 4000 := by
      simp [compact_context, hc]
    refine ⟨he, ?_, ?_⟩
    · rw [he, String.length_append, String.length_append]
      have hle : (strTakeRight st.dialogue 4000).length ≤ 4000 := by
        show (String.mk _).length ≤ 4000
        rw [String.length_mk, List.length_drop]
        omega
      omega
    · rw [he, String.data_append, String.data_append, List.append_assoc]
      exact List.prefix_append _ _
  · intro h
    simp [compact_context, h]

/-- C7 witness: the over-budget conclusions at a concrete state. -/
theorem compact_context_spec_witness :
    (⟨"m", 0, "abc"⟩ : AgentState).max_dialogue_chars < (⟨"m", 0, "abc"⟩ : AgentState).dialogue.length ∧
    ((compact_context ⟨"m", 0, "abc"⟩).dialogue
        = pyStrip SYSTEM_PROMPT ++ COMPACT_NOTICE ++ strTakeRight "abc" 4000 ∧
      (compact_context ⟨"m", 0, "abc"⟩).dialogue.length
        ≤ (pyStrip SYSTEM_PROMPT).length + COMPACT_NOTICE.length + 4000 ∧
      (pyStrip SYSTEM_PROMPT).data <+: (compact_context ⟨"m", 0, "abc"⟩).dialogue.data) :=
  ⟨by decide, (compact_context_spec ⟨"m", 0, "abc"⟩).1 (by decide)⟩

/-- C8: the transcript always begins with the stripped system instruction:
at construction, after any chat turn in any backend mode (error exits
included), and under arbitrarily repeated compaction. -/
theorem transcript_sys_invariant :
    (∀ mn mdc, startsWithSys (initState mn mdc).dialogue) ∧
    (∀ st, startsWithSys st.dialogue → startsWithSys (compact_context st).dialogue) ∧
    (∀ n st, startsWithSys st.dialogue → startsWithSys (iterCompact n st).dialogue) ∧
    (∀ backend w st u, startsWithSys st.dialogue → startsWithSys (chat backend w st u).2.dialogue) := by
  have hinit : ∀ mn mdc, startsWithSys (initState mn mdc).dialogue := by
    intro mn mdc
    show startsWithSys (pyStrip SYSTEM_PROMPT ++ "\n\nConversation so far:\n")
    rw [startsWithSys, String.data_append]
    exact List.prefix_append _ _
  refine ⟨hinit, startsWithSys_compact, ?_, ?_⟩
  · intro n
    induction n with
    | zero => exact fun st h => h
    | succ k ih => exact fun st h => ih _ (startsWithSys_compact _ h)
  · intro backend w st u h
    by_cases hb : (backend == "mock") = true
    · have hbe : backend = "mock" := eq_of_beq hb
      subst hbe
      rcases chat_mock_spec w st u with ⟨r, he, _⟩
      rw [he]
      exact startsWithSys_append _ _ h
    · exact chat_state_inv backend w st u (by simpa using hb) h

/-- C8 witness: the invariant holds after one compaction of the freshly
constructed state. -/
theorem transcript_sys_invariant_witness :
    startsWithSys (compact_context (initState "m" 8000)).dialogue :=
  transcript_sys_invariant.2.1 (initState "m" 8000) (transcript_sys_invariant.1 "m" 8000)

/-- C10: a mock-mode chat turn never compacts: it returns successfully and
only appends to the dialogue, so the previous dialogue stays a prefix, the
length grows by at least 20 characters per turn, and iterated turns exceed
any bound (in particular `max_dialogue_chars`). -/
theorem mock_chat_append_only :
    (∀ w st u, ∃ r, chat "mock" w st u = (Except.ok r, appendTurn st u r)) ∧
    (∀ w st u, st.dialogue.data <+: (chat "mock" w st u).2.dialogue.data) ∧
    (∀ w st u, st.dialogue.length + 20 ≤ (chat "mock" w st u).2.dialogue.length) ∧
    (∀ w u n st, st.dialogue.length + 20 * n ≤ (mock_run w u n st).dialogue.length) ∧
    (∀ w u st N, ∃ n, N < (mock_run w u n st).dialogue.length) := by
  have hgrow : ∀ w st u, st.dialogue.length + 20 ≤ (chat "mock" w st u).2.dialogue.length := by
    intro w st u
    rcases chat_mock_spec w st u with ⟨r, he, hne⟩
    rw [he]
    show st.dialogue.length + 20 ≤ (st.dialogue ++ _).length
    simp only [String.length_append]
    have hr := length_pos_of_ne_empty hne
    have h6 : ("User: " : String).length = 6 := by decide
    have h12 : ("\nAssistant: " : String).length = 12 := by decide
    have h1 : ("\n" : String).length = 1 := by decide
    omega
  have hiter : ∀ w u n st, st.dialogue.length + 20 * n ≤ (mock_run w u n st).dialogue.length := by
    intro w u n
    induction n with
    | zero => intro st; simp [mock_run]
    | succ k ih =>
        intro st
        have h1 := hgrow w st u
        have h2 := ih (chat "mock" w st u).2
        show st.dialogue.length + 20 * (k + 1) ≤ (mock_run w u k (chat "mock" w st u).2).dialogue.length
        omega
  refine ⟨?_, ?_, hgrow, hiter, ?_⟩
  · intro w st u
    rcases chat_mock_spec w st u with ⟨r, he, _⟩
    exact ⟨r, he⟩
  · intro w st u
    rcases chat_mock_spec w st u with ⟨r, he, _⟩
    rw [he]
    show st.dialogue.data <+: (st.dialogue ++ _).data
    rw [String.data_append]
    exact List.prefix_append _ _
  · intro w u st N
    refine ⟨N + 1, ?_⟩
    have := hiter w u (N + 1) st
    omega

/-- C3: the rule-based planner is the first-match scan over the spec's
ordered trigger list — check-reminder phrases win over "remember",
"recall"/"memory", "search"/"news" and "remind"/"reminder", in that order —
and a message matching no trigger gets the default echo respond action.
(The code's extra disjuncts "what do you remember" and "set a reminder" are
subsumed by the earlier "remember" and "remind" substrings.) -/
theorem mock_planner_order (u : String) :
    choiceOf (mock_decide_action u) = specTrigger u ∧
    (specTrigger u = PlanChoice.echoDefault →
      mock_decide_action u = JVal.obj [("action", JVal.str "respond"),
        ("content", JVal.str ("Hi, I'm Jarvis running in offline mock mode. I received: " ++ u))]) := by
  have hwdyr : hasSub (lowerStr u) "what do you remember" = true →
      hasSub (lowerStr u) "remember" = true :=
    fun h => hasSub_of_infix (by decide) h
  have hsetrem : hasSub (lowerStr u) "set a reminder" = true →
      hasSub (lowerStr u) "remind" = true :=
    fun h => hasSub_of_infix (by decide) h
  simp only [mock_decide_action, specTrigger]
  by_cases h1 : (hasSub (lowerStr u) "check reminders" = true ∨ hasSub (lowerStr u) "any reminders" = true ∨ hasSub (lowerStr u) "show my reminders" = true)
  · rw [if_pos h1, if_pos h1]
    exact ⟨rfl, fun hc => PlanChoice.noConfusion hc⟩
  · rw [if_neg h1, if_neg h1]
    by_cases h2 : hasSub (lowerStr u) "remember" = true
    · rw [if_pos h2, if_pos h2]
      exact ⟨rfl, fun hc => PlanChoice.noConfusion hc⟩
    · rw [if_neg h2, if_neg h2]
      by_cases h3 : (hasSub (lowerStr u) "recall" = true ∨ hasSub (lowerStr u) "memory" = true)
      · have h3c : (hasSub (lowerStr u) "recall" = true ∨ hasSub (lowerStr u) "what do you remember" = true ∨ hasSub (lowerStr u) "memory" = true) := by
          rcases h3 with h | h
          · exact Or.inl h
          · exact Or.inr (Or.inr h)
        rw [if_pos h3c, if_pos h3]
        exact ⟨rfl, fun hc => PlanChoice.noConfusion hc⟩
      · have h3c : ¬ (hasSub (lowerStr u) "recall" = true ∨ hasSub (lowerStr u) "what do you remember" = true ∨ hasSub (lowerStr u) "memory" = true) := by
          rintro (h | h | h)
          · exact h3 (Or.inl h)
          · exact h2 (hwdyr h)
          · exact h3 (Or.inr h)
        rw [if_neg h3c, if_neg h3]
        by_cases h4 : (hasSub (lowerStr u) "search" = true ∨ hasSub (lowerStr u) "news" = true)
        · rw [if_pos h4, if_pos h4]
          exact ⟨rfl, fun hc => PlanChoice.noConfusion hc⟩
        · rw [if_neg h4, if_neg h4]
          by_cases h5 : (hasSub (lowerStr u) "remind" = true ∨ hasSub (lowerStr u) "reminder" = true)
          · have h5c : (hasSub (lowerStr u) "remind" = true ∨ hasSub (lowerStr u) "reminder" = true ∨ hasSub (lowerStr u) "set a reminder" = true) := by
              rcases h5 with h | h
              · exact Or.inl h
              · exact Or.inr (Or.inl h)
            rw [if_pos h5c, if_pos h5]
            exact ⟨rfl, fun hc => PlanChoice.noConfusion hc⟩
          · have h5c : ¬ (hasSub (lowerStr u) "remind" = true ∨ hasSub (lowerStr u) "reminder" = true ∨ hasSub (lowerStr u) "set a reminder" = true) := by
              rintro (h | h | h)
              · exact h5 (Or.inl h)
              · exact h5 (Or.inr h)
              · exact h5 (Or.inl (hsetrem h))
            rw [if_neg h5c, if_neg h5]
            exact ⟨rfl, fun _ => rfl⟩

/-- C3 witness: a message carrying both a check phrase and "remember" still
selects `check_reminders`, and a trigger-free message gets the echo. -/
theorem mock_planner_order_witness :
    choiceOf (mock_decide_action "please check reminders and remember this") = PlanChoice.checkRem ∧
    mock_decide_action "hello there" = JVal.obj [("action", JVal.str "respond"),
      ("content", JVal.str ("Hi, I'm Jarvis running in offline mock mode. I received: " ++ "hello there"))] :=
  ⟨by rw [(mock_planner_order "please check reminders and remember this").1]; decide,
   (mock_planner_order "hello there").2 (by decide)⟩

/-- C4: whenever the remote backend call raises (either `hf` or `gemini`),
`_call_model` returns the JSON-serialised respond action whose content is
the user-readable apology followed by the exception text — the exception
text and the apology are both contained in that content — and no exception
reaches the caller (the function's result type carries no error case). -/
theorem call_model_catches (w : World) (st : AgentState) (prompt e : String) :
    (w.hfCall prompt = Except.error e →
      (call_model "hf" w st prompt).1
        = jvalDumps true (respondAction
            ("I couldn't reach the Hugging Face model due to an error.\n\nTechnical details: " ++ e)) ∧
      ("I couldn't reach").data
        <:+: ("I couldn't reach the Hugging Face model due to an error.\n\nTechnical details: " ++ e).data ∧
      e.data
        <:+: ("I couldn't reach the Hugging Face model due to an error.\n\nTechnical details: " ++ e).data) ∧
    (w.gemCall prompt = Except.error e →
      (call_model "gemini" w st prompt).1
        = jvalDumps true (respondAction
            ("I couldn't reach the Gemini API because of a quota or network error.\n\nTechnical details: " ++ e)) ∧
      ("I couldn't reach").data
        <:+: ("I couldn't reach the Gemini API because of a quota or network error.\n\nTechnical details: " ++ e).data ∧
      e.data
        <:+: ("I couldn't reach the Gemini API because of a quota or network error.\n\nTechnical details: " ++ e).data) := by
  constructor
  · intro hf
    refine ⟨by simp [call_model, hf], ?_, ?_⟩
    · rw [String.data_append]
      have hp : ("I couldn't reach").data
          <+: ("I couldn't reach the Hugging Face model due to an error.\n\nTechnical details: ").data := by decide
      exact (hp.trans (List.prefix_append _ _)).isInfix
    · rw [String.data_append]
      exact ⟨("I couldn't reach the Hugging Face model due to an error.\n\nTechnical details: ").data, [], by simp⟩
  · intro hg
    refine ⟨by simp [call_model, hg], ?_, ?_⟩
    · rw [String.data_append]
      have hp : ("I couldn't reach").data
          <+: ("I couldn't reach the Gemini API because of a quota or network error.\n\nTechnical details: ").data := by decide
      exact (hp.trans (List.prefix_append _ _)).isInfix
    · rw [String.data_append]
      exact ⟨("I couldn't reach the Gemini API because of a quota or network error.\n\nTechnical details: ").data, [], by simp⟩

/-- C4 witness: both implications at a world whose backends raise. -/
theorem call_model_catches_witness :
    (call_model "hf" ⟨fun _ => Except.error "boom", fun _ => Except.error "boom", fun _ => none, fun _ _ => ToolExec.ok ""⟩ ⟨"m", 8000, "d"⟩ "p").1
      = jvalDumps true (respondAction
          ("I couldn't reach the Hugging Face model due to an error.\n\nTechnical details: " ++ "boom")) ∧
    (call_model "gemini" ⟨fun _ => Except.error "boom", fun _ => Except.error "boom", fun _ => none, fun _ _ => ToolExec.ok ""⟩ ⟨"m", 8000, "d"⟩ "p").1
      = jvalDumps true (respondAction
          ("I couldn't reach the Gemini API because of a quota or network error.\n\nTechnical details: " ++ "boom")) :=
  ⟨((call_model_catches _ ⟨"m", 8000, "d"⟩ "p" "boom").1 rfl).1,
   ((call_model_catches _ ⟨"m", 8000, "d"⟩ "p" "boom").2 rfl).1⟩

/-- A filesystem with no readable files, for exercising `read_file`'s path
check in isolation. -/
def noFS : FileSys :=
  ⟨fun _ => false, fun _ => 0, fun _ => Except.error "unreachable"⟩

/-- C1: the claim fails on the code.  With root `"/a/b"`, the argument
`"../bb/x"` resolves to `"/a/bb/x"`, which lies outside the root directory,
yet `read_file` does not refuse it: the guard is the plain string-prefix
test `full_path.startswith(BASE_DIR)`, which the sibling directory
`"/a/bb"` passes, contradicting the docstring "only allow files inside the
project folder".  The call falls through to the existence check and answers
"File not found" instead of the access-denial string. -/
theorem read_file_prefix_escape :
    insideDir "/a/b" (normpath (osJoin "/a/b" "../bb/x")) = false ∧
    ("/a/b").data.isPrefixOf (normpath (osJoin "/a/b" "../bb/x")).data = true ∧
    read_file "/a/b" noFS "../bb/x" = "File not found: ../bb/x" ∧
    read_file "/a/b" noFS "../bb/x"
      ≠ "Access denied: you can only read files inside the project folder." := by
  refine ⟨by decide, by decide, by decide, by decide⟩

/-- C5: in backend-driven mode, (a) a backend text `json.loads` rejects
makes `chat` return the raw text itself (a fixed placeholder when it is
empty); (b) a decoded value that is not an object carrying an "action" key
gets the same raw-text fallback; (c) a respond action whose content is
empty or missing yields the fixed empty-content placeholder.  All three
cases return `Except.ok`: nothing is raised and nothing is retried. -/
theorem chat_parse_fallbacks (backend : String) (w : World) (st : AgentState) (u : String)
    (hb : (backend == "mock") = false) :
    (w.jsonLoads ((call_model backend w st (planPrompt st.dialogue u)).1) = none →
      (chat backend w st u).1
        = Except.ok (if (call_model backend w st (planPrompt st.dialogue u)).1 == "" then
            "I could not understand my own JSON output."
          else (call_model backend w st (planPrompt st.dialogue u)).1)) ∧
    (∀ j, w.jsonLoads ((call_model backend w st (planPrompt st.dialogue u)).1) = some j →
      noActionKey j →
      (chat backend w st u).1
        = Except.ok (if (call_model backend w st (planPrompt st.dialogue u)).1 == "" then
            "I produced an invalid JSON action."
          else (call_model backend w st (planPrompt st.dialogue u)).1)) ∧
    (∀ kvs, w.jsonLoads ((call_model backend w st (planPrompt st.dialogue u)).1) = some (JVal.obj kvs) →
      jGet kvs "action" = some (JVal.str "respond") →
      contentEmptyOrMissing (jGet kvs "content") →
      (chat backend w st u).1 = Except.ok "I tried to respond, but my content was empty.") := by
  refine ⟨?_, ?_, ?_⟩
  · intro hjl
    simp only [chat, hb, Bool.false_eq_true, if_false]
    rw [hjl]
  · intro j hjl hna
    simp only [chat, hb, Bool.false_eq_true, if_false]
    rw [hjl]
    simp only []
    cases j with
    | obj kvs =>
        simp only []
        rw [show jGet kvs "action" = none from hna]
    | str s => rfl
    | num n => rfl
    | bool b => rfl
    | null => rfl
    | arr xs => rfl
  · intro kvs hjl hag hce
    simp only [chat, hb, Bool.false_eq_true, if_false]
    rw [hjl]
    simp only []
    rw [hag]
    simp only []
    rw [if_pos (show (("respond" : String) == "respond") = true by decide)]
    rcases hce with hnone | hempty
    · rw [hnone]; rfl
    · rw [hempty]; rfl

/-- C5 witness: the raw-text fallback at a concrete world whose backend
returns undecodable text. -/
theorem chat_parse_fallbacks_witness :
    (chat "hf" ⟨fun _ => Except.ok (some "plain text"), fun _ => Except.error "x", fun _ => none, fun _ _ => ToolExec.ok ""⟩ ⟨"m", 8000, "d"⟩ "hi").1
      = Except.ok (if (call_model "hf" ⟨fun _ => Except.ok (some "plain text"), fun _ => Except.error "x", fun _ => none, fun _ _ => ToolExec.ok ""⟩ ⟨"m", 8000, "d"⟩ (planPrompt ("d" : String) "hi")).1 == "" then
          "I could not understand my own JSON output."
        else (call_model "hf" ⟨fun _ => Except.ok (some "plain text"), fun _ => Except.error "x", fun _ => none, fun _ _ => ToolExec.ok ""⟩ ⟨"m", 8000, "d"⟩ (planPrompt ("d" : String) "hi")).1) :=
  (chat_parse_fallbacks "hf" _ ⟨"m", 8000, "d"⟩ "hi" (by decide)).1 rfl

/-- A world for exercising the dispatcher alone. -/
def plainWorld : World :=
  ⟨fun _ => Except.error "offline", fun _ => Except.error "offline", fun _ => none,
   fun _ _ => ToolExec.ok "ok"⟩

/-- C6 counterexample: `_run_tool` can propagate an exception.  When the
decoded tool name is a JSON array, the membership test `name not in TOOLS`
hashes it and raises `TypeError: unhashable type: 'list'` outside any
`try`, so the error escapes `_run_tool` (and the claim's "never propagates
an exception" is false as stated). -/
theorem run_tool_unhashable_cex :
    run_tool plainWorld (some (JVal.arr [])) (JVal.obj [])
      = Except.error "TypeError: unhashable type: 'list'" := rfl

/-- The tool result folded into the follow-up prompt is contained in that
prompt. -/
theorem followup_contains (d u : String) (nm : Option JVal) (args : JVal) (tr : String) :
    tr.data <:+: (followupPrompt d u nm args tr).data := by
  unfold followupPrompt
  refine ⟨(d ++ "User: " ++ u ++ "\n" ++ "Assistant decided to call a tool.\n"
      ++ "Tool name: " ++ optPyStr nm ++ "\n" ++ "Tool args: " ++ jvalDumps false args
      ++ "\n" ++ "Tool result: ").data,
    ("\n\n" ++ "Now Assistant, give the final, user-friendly answer (no JSON, just text):").data, ?_⟩
  simp only [String.data_append, List.append_assoc]

/-- C6 (amended): for every hashable decoded name the dispatcher never
raises: a name absent from the registry yields the descriptive
"not implemented" string, a `TypeError` from the tool body yields the
argument-mismatch string, any other exception yields the "raised an error"
string; only an unhashable (array/object) name escapes as the `TypeError`
of the membership test itself.  On the backend path, a turn whose decoded
action names an unknown tool still completes with a non-empty reply, and
the failure string is folded into the summarisation prompt. -/
theorem run_tool_failure_spec :
    (∀ w n args, TOOLS.contains n = false →
      run_tool w (some (JVal.str n)) args
        = Except.ok ("Error: tool '" ++ n ++ "' is not implemented.")) ∧
    (∀ w n args e, TOOLS.contains n = true → w.toolCall n args = ToolExec.typeErr e →
      run_tool w (some (JVal.str n)) args
        = Except.ok ("Error calling tool '" ++ n ++ "': " ++ e)) ∧
    (∀ w n args e, TOOLS.contains n = true → w.toolCall n args = ToolExec.raised e →
      run_tool w (some (JVal.str n)) args
        = Except.ok ("Tool '" ++ n ++ "' raised an error: " ++ e)) ∧
    (∀ w name args, hashableName name → ∃ s, run_tool w name args = Except.ok s) ∧
    (∀ backend w st u kvs, (backend == "mock") = false →
      w.jsonLoads ((call_model backend w st (planPrompt st.dialogue u)).1) = some (JVal.obj kvs) →
      jGet kvs "action" = some (JVal.str "tool") →
      jGet kvs "name" = some (JVal.str "nonexistent_tool") →
      ∃ r, (chat backend w st u).1 = Except.ok r ∧ r ≠ "" ∧
        ("Error: tool 'nonexistent_tool' is not implemented.").data
          <:+: (followupPrompt (compact_context st).dialogue u (some (JVal.str "nonexistent_tool"))
                  (pyOrDict (jGet kvs "args"))
                  "Error: tool 'nonexistent_tool' is not implemented.").data) := by
  refine ⟨?_, ?_, ?_, run_tool_ok, ?_⟩
  · intro w n args hc
    simp only [run_tool]
    rw [if_neg (show ¬ TOOLS.contains n = true by rw [hc]; simp)]
  · intro w n args e hc htc
    simp only [run_tool]
    rw [if_pos hc]
    simp only [runToolStr, htc]
  · intro w n args e hc htc
    simp only [run_tool]
    rw [if_pos hc]
    simp only [runToolStr, htc]
  · intro backend w st u kvs hb hjl hag hname
    simp only [chat, hb, Bool.false_eq_true, if_false]
    rw [call_model_state, hjl]
    simp only []
    rw [hag]
    simp only []
    rw [if_neg (by decide : ¬ (("tool" : String) == "respond") = true)]
    rw [if_pos (by decide : (("tool" : String) == "tool") = true)]
    rw [hname]
    rw [show run_tool w (some (JVal.str "nonexistent_tool")) (pyOrDict (jGet kvs "args"))
        = Except.ok "Error: tool 'nonexistent_tool' is not implemented." from rfl]
    simp only []
    exact ⟨_, rfl, if_empty_ne_empty _ _ (by decide), followup_contains _ _ _ _ _⟩

/-- C6 witness: each dispatcher conclusion at concrete inputs. -/
theorem run_tool_failure_spec_witness :
    run_tool plainWorld (some (JVal.str "frobnicate")) (JVal.obj [])
      = Except.ok ("Error: tool '" ++ "frobnicate" ++ "' is not implemented.") ∧
    (∃ s, run_tool plainWorld (some (JVal.str "web_search")) (JVal.obj []) = Except.ok s) :=
  ⟨run_tool_failure_spec.1 plainWorld "frobnicate" (JVal.obj []) (by decide),
   run_tool_failure_spec.2.2.2.1 plainWorld (some (JVal.str "web_search")) (JVal.obj []) True.intro⟩

/-- A world whose backend answers a syntactically valid respond action whose
content is the number 5 (valid JSON, decoded faithfully by `jsonLoads`). -/
def intContentWorld : World :=
  ⟨fun _ => Except.ok (some "\x7b\"action\": \"respond\", \"content\": 5\x7d"),
   fun _ => Except.error "offline",
   fun s => if s == "\x7b\"action\": \"respond\", \"content\": 5\x7d" then
       some (JVal.obj [("action", JVal.str "respond"), ("content", JVal.num 5)])
     else none,
   fun _ _ => ToolExec.ok "ok"⟩

/-- C2 counterexample: the claim fails on the code.  When the backend text
is `{"action": "respond", "content": 5}` — valid JSON with the respond
action — `chat` evaluates `(action.get("content") or "").strip()` on the
integer 5 and the `AttributeError` propagates out of the turn: the started
turn neither completes nor returns a string. -/
theorem chat_attribute_error_cex :
    (chat "hf" intContentWorld ⟨"m", 8000, "d"⟩ "hi").1
      = Except.error "AttributeError: 'int' object has no attribute 'strip'" := rfl

/-- C2 (amended): once a turn has begun it completes with a non-empty reply
— no path raises and none returns the empty string — in mock mode
unconditionally, and in every backend mode provided each decodable backend
text is benign: a decoded respond content is a string after `or`-coercion
(a truthy non-string content raises `AttributeError`), and a decoded tool
name is hashable (a decoded array or object raises `TypeError`). -/
theorem chat_total_nonempty (backend : String) (w : World) (st : AgentState) (u : String)
    (hw : benignWorld w) :
    ∃ r, (chat backend w st u).1 = Except.ok r ∧ r ≠ "" := by
  by_cases hb : (backend == "mock") = true
  · have hbe : backend = "mock" := eq_of_beq hb
    subst hbe
    rcases chat_mock_spec w st u with ⟨r, he, hne⟩
    exact ⟨r, by rw [he], hne⟩
  · rcases chat_real_spec backend w st u (by simpa using hb) hw with ⟨r, stx, he, hne, _⟩
    exact ⟨r, by rw [he], hne⟩

/-- C2 witness: a completed non-empty mock turn over a world that decodes
nothing. -/
theorem chat_total_nonempty_witness :
    ∃ r, (chat "mock" plainWorld (initState "m" 8000) "hello").1 = Except.ok r ∧ r ≠ "" :=
  chat_total_nonempty "mock" plainWorld (initState "m" 8000) "hello"
    (fun _ _ h => Option.noConfusion h)

/-- The list `check_reminders` persists is the record-wise update of its
input. -/
theorem check_reminders_snd (now : Nat) (rs : List Reminder) :
    (check_reminders now rs).2 = rs.map (fun r => (reminderStep now r).1) := by
  simp only [check_reminders]
  split <;> simp [List.map_map]

/-- A member of a joined list is a substring of the join. -/
theorem joinWith_infix (sep : String) (L : List String) (x : String) (hx : x ∈ L) :
    x.data <:+: (joinWith sep L).data := by
  induction L with
  | nil => cases hx
  | cons y ys ih =>
      cases ys with
      | nil =>
          have hxy : x = y := by simpa using hx
          subst hxy
          exact List.infix_refl _
      | cons z zs =>
          rcases List.mem_cons.mp hx with he | hm
          · subst he
            show x.data <:+: (x ++ sep ++ joinWith sep (z :: zs)).data
            rw [String.data_append, String.data_append]
            exact ((List.prefix_append _ _).trans (List.prefix_append _ _)).isInfix
          · have h2 := ih hm
            show x.data <:+: (y ++ sep ++ joinWith sep (z :: zs)).data
            rw [String.data_append, String.data_append]
            rcases h2 with ⟨s, t, hst⟩
            refine ⟨y.data ++ sep.data ++ s, t, ?_⟩
            simpa [List.append_assoc] using congrArg (fun l => y.data ++ (sep.data ++ l)) hst

/-- Re-checking a record at the same instant finds nothing due. -/
theorem reminderStep_idem_same (now : Nat) (r : Reminder) :
    (reminderStep now (reminderStep now r).1).2 = none := by
  unfold reminderStep
  by_cases hd : r.delivered = true
  · simp [hd]
  · have hd2 : r.delivered = false := by simpa using hd
    cases hdue : r.due_at with
    | none => simp [hd2, hdue]
    | some t =>
        by_cases hle : t ≤ now
        · simp [hd2, hdue, hle]
        · simp [hd2, hdue, hle]

/-- Re-checking later finds nothing due, provided the record was already
past due (or delivered, or unparseable) at the first check. -/
theorem reminderStep_none_later (now now2 : Nat) (r : Reminder)
    (h : r.delivered = false → ∀ t, r.due_at = some t → t ≤ now) :
    (reminderStep now2 (reminderStep now r).1).2 = none := by
  unfold reminderStep
  by_cases hd : r.delivered = true
  · simp [hd]
  · have hd2 : r.delivered = false := by simpa using hd
    cases hdue : r.due_at with
    | none => simp [hd2, hdue]
    | some t =>
        have ht := h hd2 t hdue
        simp [hd2, hdue, ht]

/-- A second `check_reminders` call reports nothing due whenever every
record comes back `none` from the composed step. -/
theorem check_again_none (now now2 : Nat) (rs : List Reminder)
    (h : ∀ r ∈ rs, (reminderStep now2 (reminderStep now r).1).2 = none) :
    (check_reminders now2 (check_reminders now rs).2).1
      = "You don't have any reminders due right now." := by
  rw [check_reminders_snd]
  simp only [check_reminders]
  have hdue : ((rs.map (fun r => (reminderStep now r).1)).map (reminderStep now2)).filterMap Prod.snd = [] := by
    rw [List.map_map, List.filterMap_map, List.filterMap_eq_nil_iff]
    intro r hr
    exact h r hr
  rw [hdue]
  rfl

/-- C9 counterexample: the claim fails on the code for a later second call.
At time 10 the list holds the undelivered past-due reminder "water plants"
(due 5) and the not-yet-due "stand up" (due 15).  The first call delivers
"water plants", but a second call at the later time 20 returns "stand up"
rather than the none-due message. -/
theorem check_reminders_later_cex :
    ((⟨"water plants", 0, some 5, false⟩ : Reminder).delivered = false ∧
      (⟨"water plants", 0, some 5, false⟩ : Reminder).due_at = some 5 ∧ 5 ≤ 10) ∧
    (check_reminders 20 (check_reminders 10
        [⟨"water plants", 0, some 5, false⟩, ⟨"stand up", 0, some 15, false⟩]).2).1
      ≠ "You don't have any reminders due right now." :=
  ⟨⟨rfl, rfl, by decide⟩, by decide⟩

/-- C9 (amended): a past-due undelivered reminder is returned by
`check_reminders` (its message occurs in the output) and its stored record
is persisted as delivered; an immediately repeated call at the same instant
always reports nothing due; and a repeated call at the same or a later
instant reports nothing due provided no other undelivered reminder has a
parseable due time after the first call's instant — after the first call,
no record that was undelivered and past due at that instant remains
undelivered. -/
theorem check_reminders_delivery_spec :
    (∀ now rs (i : Nat) (hi : i < rs.length),
      (rs.get ⟨i, hi⟩).delivered = false →
      ∀ t, (rs.get ⟨i, hi⟩).due_at = some t → t ≤ now →
        ((rs.get ⟨i, hi⟩).message.data <:+: (check_reminders now rs).1.data ∧
         ∃ hi2 : i < (check_reminders now rs).2.length,
           (check_reminders now rs).2.get ⟨i, hi2⟩
             = { rs.get ⟨i, hi⟩ with delivered := true })) ∧
    (∀ now rs, (check_reminders now (check_reminders now rs).2).1
        = "You don't have any reminders due right now.") ∧
    (∀ now now2 rs, now ≤ now2 →
      (∀ r ∈ rs, r.delivered = false → ∀ t, r.due_at = some t → t ≤ now) →
      (check_reminders now2 (check_reminders now rs).2).1
        = "You don't have any reminders due right now.") := by
  refine ⟨?_, ?_, ?_⟩
  · intro now rs i hi hdel t hdue hle
    simp only [List.get_eq_getElem] at hdel hdue ⊢
    have hstep : reminderStep now rs[i]
        = ({ rs[i] with delivered := true }, some rs[i]) := by
      unfold reminderStep
      simp [hdel, hdue, hle]
    have hmem : rs[i] ∈ rs := List.getElem_mem hi
    have hdueMem : rs[i] ∈ (rs.map (reminderStep now)).filterMap Prod.snd := by
      refine List.mem_filterMap.mpr ⟨_, List.mem_map_of_mem _ hmem, ?_⟩
      rw [hstep]
    constructor
    · simp only [check_reminders]
      rw [if_neg (show ¬ ((rs.map (reminderStep now)).filterMap Prod.snd).isEmpty = true by
        intro hemp
        exact List.ne_nil_of_mem hdueMem (List.isEmpty_iff.mp hemp))]
      have hline :
          ("- " ++ rs[i].message ++ " (due at " ++ dueAtText rs[i].due_at ++ ")")
            ∈ ("Here are your due reminders:" ::
                ((rs.map (reminderStep now)).filterMap Prod.snd).map
                  (fun r => "- " ++ r.message ++ " (due at " ++ dueAtText r.due_at ++ ")")) :=
        List.mem_cons_of_mem _ (List.mem_map_of_mem _ hdueMem)
      have hj := joinWith_infix "\n" _ _ hline
      refine List.IsInfix.trans ?_ hj
      refine ⟨("- ").data, (" (due at " ++ dueAtText rs[i].due_at ++ ")").data, ?_⟩
      simp [String.data_append, List.append_assoc]
    · have hlen : (check_reminders now rs).2.length = rs.length := by
        rw [check_reminders_snd, List.length_map]
      refine ⟨by omega, ?_⟩
      simp only [List.get_eq_getElem, check_reminders_snd, List.getElem_map]
      rw [hstep]
  · intro now rs
    exact check_again_none now now rs (fun r _ => reminderStep_idem_same now r)
  · intro now now2 rs _ h
    exact check_again_none now now2 rs (fun r hr => reminderStep_none_later now now2 r (h r hr))

/-- C9 witness: delivery and idempotence at a concrete one-element list. -/
theorem check_reminders_delivery_spec_witness :
    (("ping" : String).data
        <:+: (check_reminders 10 [(⟨"ping", 0, some 3, false⟩ : Reminder)]).1.data ∧
      ∃ hi2 : 0 < (check_reminders 10 [(⟨"ping", 0, some 3, false⟩ : Reminder)]).2.length,
        (check_reminders 10 [(⟨"ping", 0, some 3, false⟩ : Reminder)]).2.get ⟨0, hi2⟩
          = (⟨"ping", 0, some 3, true⟩ : Reminder)) ∧
    (check_reminders 10 (check_reminders 10 [(⟨"ping", 0, some 3, false⟩ : Reminder)]).2).1
      = "You don't have any reminders due right now." :=
  ⟨check_reminders_delivery_spec.1 10 [(⟨"ping", 0, some 3, false⟩ : Reminder)] 0 (by decide) rfl 3 rfl (by decide),
   check_reminders_delivery_spec.2.1 10 [(⟨"ping", 0, some 3, false⟩ : Reminder)]⟩
